import Mathlib

/-!
Verification of the command/Setting core of gdb's command.h and of
compile/compile-c-support.c, by shallow embedding in Lean 4.

Part 1: the Setting abstraction (struct base_param_ref / param_ref of
gdb/command.h).  Machine state that the C++ code reaches through raw
pointers is made explicit: memory is a map from addresses (Nat) to
tagged values, a nullable pointer is an Option address, and a
gdb_assert failure is the error case of an Except.
-/

set_option autoImplicit false

namespace GdbCommand

/-- Types of "set" or "show" command, enum var_types of command.h. -/
inductive var_types where
  | var_boolean
  | var_auto_boolean
  | var_uinteger
  | var_integer
  | var_string
  | var_string_noescape
  | var_optional_filename
  | var_filename
  | var_zinteger
  | var_zuinteger
  | var_zuinteger_unlimited
  | var_enum
  deriving DecidableEq, Repr

/-- The C++ storage types that the var_types map onto: bool, enum
auto_boolean, unsigned int, int, std::string and const char *.
Distinct constructors model distinct C++ types (int and unsigned int
are different types). -/
inductive storage_types where
  | ty_bool
  | ty_auto_boolean
  | ty_uint
  | ty_int
  | ty_string
  | ty_const_char
  deriving DecidableEq, Repr

/-- detail::var_types_storage: the storage type associated with each
var_types value, read off the twelve template specializations in
command.h. -/
def var_types_storage : var_types → storage_types
  | .var_boolean => .ty_bool
  | .var_auto_boolean => .ty_auto_boolean
  | .var_uinteger => .ty_uint
  | .var_integer => .ty_int
  | .var_string => .ty_string
  | .var_string_noescape => .ty_string
  | .var_optional_filename => .ty_string
  | .var_filename => .ty_string
  | .var_zinteger => .ty_int
  | .var_zuinteger => .ty_uint
  | .var_zuinteger_unlimited => .ty_int
  | .var_enum => .ty_const_char

/-- detail::var_types_have_same_storage<Ts...>::value.  The template
parameter pack is a list; the three specializations (one parameter,
two parameters, three or more) become the three match arms. -/
def var_types_have_same_storage : List var_types → Bool
  | [] => true
  | [_] => true
  | [t, u] => var_types_storage t == var_types_storage u
  | t :: u :: us =>
      (var_types_storage t == var_types_storage u)
        && var_types_have_same_storage (t :: us)
termination_by l => l.length

/-- detail::var_types_have_same_storage<Ts...>::covers_type (t): true
iff t is one of the template parameters. -/
def covers_type : List var_types → var_types → Bool
  | [], _ => false
  | [t], x => x == t
  | t :: us, x => (x == t) || covers_type us x

/-- enum auto_boolean of gdbsupport. -/
inductive auto_boolean where
  | auto_boolean_true
  | auto_boolean_false
  | auto_boolean_auto
  deriving DecidableEq, Repr

/-- A tagged value of one of the six storage types.  A const char *
may be null, hence the Option. -/
inductive setting_value where
  | v_bool (b : Bool)
  | v_auto_boolean (a : auto_boolean)
  | v_uint (n : Nat)
  | v_int (n : Int)
  | v_string (s : String)
  | v_const_char (s : Option String)
  deriving DecidableEq, Repr

/-- The storage type of a tagged value. -/
def storage_of_value : setting_value → storage_types
  | .v_bool _ => .ty_bool
  | .v_auto_boolean _ => .ty_auto_boolean
  | .v_uint _ => .ty_uint
  | .v_int _ => .ty_int
  | .v_string _ => .ty_string
  | .v_const_char _ => .ty_const_char

/-- Global memory: a map from cell addresses to tagged values.  The
void *m_var member of base_param_ref is an address into this map. -/
def Mem : Type := Nat → setting_value

/-- Write one cell of memory (the effect of *p = v in C++). -/
def mem_update (m : Mem) (a : Nat) (v : setting_value) : Mem :=
  fun x => if x = a then v else m x

/-- A user provided getter (union param_getter).  The union of
function pointers is modelled as one nullable slot: all members alias
each other, and null is null through every member.  A getter reads
arbitrary global state, hence the Mem argument. -/
def GetterFn : Type := Mem → setting_value

/-- A user provided setter (union param_setter), same modelling as
GetterFn; a setter transforms global state. -/
def SetterFn : Type := setting_value → Mem → Mem

/-- A gdb_assert failure (a fatal programming-error fault). -/
inductive gdb_fault where
  | assertion_failure
  deriving DecidableEq, Repr

/-- struct base_param_ref: kind tag, nullable pointer to the enclosed
variable, nullable user getter and setter.  Default member
initializers of the C++ struct become the Lean defaults. -/
structure base_param_ref where
  m_var_type : var_types := .var_boolean
  m_var : Option Nat := none
  m_getter : Option GetterFn := none
  m_setter : Option SetterFn := none

/-- A freshly constructed base_param_ref (all default initializers). -/
def base_param_ref.init : base_param_ref := {}

/-- base_param_ref::empty: indicates if the current instance has an
underlying buffer, i.e. m_var == nullptr. -/
def base_param_ref.empty (s : base_param_ref) : Bool :=
  s.m_var.isNone

/-- base_param_ref::type. -/
def base_param_ref.type (s : base_param_ref) : var_types :=
  s.m_var_type

/-- base_param_ref::get_p<Ts...>: asserts that the current kind is
covered by Ts and that the instance is not empty, then returns the
pointer (here, the address) to the enclosed variable. -/
def base_param_ref.get_p (Ts : List var_types) (s : base_param_ref) :
    Except gdb_fault Nat :=
  if covers_type Ts s.m_var_type then
    match s.m_var with
    | none => .error .assertion_failure
    | some a => .ok a
  else .error .assertion_failure

/-- base_param_ref::get<Ts...>: asserts that the current kind is
covered by Ts; calls the user getter when one is installed, otherwise
dereferences the pointer obtained from get_p. -/
def base_param_ref.get (Ts : List var_types) (s : base_param_ref)
    (mem : Mem) : Except gdb_fault setting_value :=
  if covers_type Ts s.m_var_type then
    match s.m_getter with
    | some g => .ok (g mem)
    | none => (s.get_p Ts).map (fun a => mem a)
  else .error .assertion_failure

/-- base_param_ref::set<Ts...>: asserts that the current kind is
covered by Ts; calls the user setter when one is installed, otherwise
asserts the instance is not empty and writes through the pointer. -/
def base_param_ref.set (Ts : List var_types) (v : setting_value)
    (s : base_param_ref) (mem : Mem) : Except gdb_fault Mem :=
  if covers_type Ts s.m_var_type then
    match s.m_setter with
    | some f => .ok (f v mem)
    | none =>
      match s.m_var with
      | none => .error .assertion_failure
      | some a => .ok (mem_update mem a v)
  else .error .assertion_failure

/-- base_param_ref::set_accessors<T>: stores T as the kind and the two
function pointers into the accessor unions.  No assertion is made and
m_var is left untouched. -/
def base_param_ref.set_accessors (T : var_types) (setter : Option SetterFn)
    (getter : Option GetterFn) (s : base_param_ref) : base_param_ref :=
  { s with m_var_type := T, m_setter := setter, m_getter := getter }

/-- base_param_ref::operator bool: valid iff a full user accessor pair
is installed or the instance is not empty.  The C++ reads the
get_bool/set_bool union members, which alias every member. -/
def base_param_ref.valid (s : base_param_ref) : Bool :=
  (s.m_getter.isSome && s.m_setter.isSome) || !s.empty

/-- param_ref::set_type: asserts the instance is empty, then records
the kind. -/
def param_ref.set_type (t : var_types) (s : base_param_ref) :
    Except gdb_fault base_param_ref :=
  if s.empty then .ok { s with m_var_type := t }
  else .error .assertion_failure

/-- param_ref::set_p<T>: asserts the argument pointer is non-null,
records the kind via set_type (which asserts emptiness), then stores
the pointer. -/
def param_ref.set_p (T : var_types) (v : Option Nat) (s : base_param_ref) :
    Except gdb_fault base_param_ref :=
  match v with
  | none => .error .assertion_failure
  | some a =>
      (param_ref.set_type T s).map (fun s1 => { s1 with m_var := some a })

/-- var_type_uses_string of command.h. -/
def var_type_uses_string (var_type : var_types) : Bool :=
  var_type == .var_string
    || var_type == .var_string_noescape
    || var_type == .var_optional_filename
    || var_type == .var_filename

/-!
Part 2: command lookup.  command.h only declares lookup_cmd_1 (its
body lives in cli/cli-decode.c, which is not part of this source
tree), so the function is modelled from the specification: section 4.3
of the spec and the documentation comment at lines 720-766 of
command.h.
-/

/-- Modelled from the spec: one entry of the command tree.  The
missing code is struct cmd_list_element (cli/cli-decode.h, not under
this source tree).  Per the spec, a node carries a name, an
abbreviation-allowed flag, an optional handler (absence marks a
help-class node), an owned child list (nonempty for a Prefix node) and
an optional non-owning alias target (present for an Alias node; a
target is never itself an alias).  The pointer to the target is
modelled by embedding the target node, which lookup only reads. -/
inductive cmd_node where
  | mk : String → Bool → Bool → List cmd_node → Option cmd_node → cmd_node

/-- Name of a command node. -/
def cmd_node.name : cmd_node → String
  | .mk n _ _ _ _ => n

/-- Whether abbreviated (proper-prefix) matches of the name are
accepted for this node. -/
def cmd_node.allow_abbrev : cmd_node → Bool
  | .mk _ a _ _ _ => a

/-- Whether the node has a handler; false marks a help-class node. -/
def cmd_node.has_func : cmd_node → Bool
  | .mk _ _ f _ _ => f

/-- The owned child list of a Prefix node (empty for non-prefixes). -/
def cmd_node.subcommands : cmd_node → List cmd_node
  | .mk _ _ _ s _ => s

/-- The alias target, for Alias nodes. -/
def cmd_node.alias_target : cmd_node → Option cmd_node
  | .mk _ _ _ _ t => t

/-- Modelled from the spec: follow an Alias node to its base command.
Aliases must reference a concrete command, not another alias, so one
step suffices. -/
def resolve_alias (n : cmd_node) : cmd_node :=
  match n.alias_target with
  | some t => t
  | none => n

/-- Modelled from the spec: whether a token matches one sibling.  The
token must be the name, or a case-sensitive prefix of the name if the
sibling allows abbreviation; help-class nodes (no handler) are
candidates only when ignore_help_classes is off. -/
def cmd_matches (tok : String) (ignore_help_classes : Bool)
    (n : cmd_node) : Bool :=
  (n.has_func || !ignore_help_classes)
    && (tok == n.name || (n.allow_abbrev && tok.toList.isPrefixOf n.name.toList))

/-- Modelled from the spec: the siblings of one list that a token
matches, after applying the rule that an exact match always wins over
mere-prefix matches. -/
def find_matches (tok : String) (ignore_help_classes : Bool)
    (clist : List cmd_node) : List cmd_node :=
  let cands := clist.filter (cmd_matches tok ignore_help_classes)
  match cands.filter (fun n => n.name == tok) with
  | [e] => [e]
  | _ => cands

/-- Modelled from the spec: the return value of lookup_cmd_1.  The C
function returns NULL for no match, the sentinel
CMD_LIST_AMBIGUOUS == (struct cmd_list_element *) -1 for an ambiguous
match, or a pointer to a real command node. -/
inductive cmd_lookup_ret where
  | null
  | ambiguous_sentinel
  | cmd (n : cmd_node)

/-- Modelled from the spec: the three outputs of lookup_cmd_1: the
returned node (or sentinel), the best-known enclosing prefix command
written to *result_list (none when no prefix command was ever found),
and the advanced text cursor, modelled as the list of remaining
whitespace-delimited tokens. -/
structure lookup_outcome where
  ret : cmd_lookup_ret
  result_list : Option cmd_node
  remaining : List String

/-- Modelled from the spec: lookup_cmd_1 (body in cli/cli-decode.c,
not under this source tree), from spec section 4.3 and the comment at
command.h lines 720-766.  Take the next token; collect the matching
siblings with exact match beating prefix matches; no candidate is no
match; more than one is ambiguous, returning the sentinel, the
best-known enclosing prefix and the cursor advanced only past the last
unambiguous prefix boundary; a unique candidate is followed through
its alias, then descended into when it is a prefix and input remains,
else returned.  The best parameter is the best-known enclosing prefix
so far; the top-level call passes none. -/
def lookup_cmd_1 : List String → List cmd_node → Option cmd_node → Bool →
    lookup_outcome
  | [], _, best, _ => ⟨.null, best, []⟩
  | tok :: rest, clist, best, ignore_help_classes =>
    match find_matches tok ignore_help_classes clist with
    | [] => ⟨.null, best, tok :: rest⟩
    | [n] =>
      let base := resolve_alias n
      if !base.subcommands.isEmpty && !rest.isEmpty then
        lookup_cmd_1 rest base.subcommands (some base) ignore_help_classes
      else ⟨.cmd base, best, rest⟩
    | _ => ⟨.ambiguous_sentinel, best, tok :: rest⟩

/-- Modelled from the spec: the top-level lookup entry point starts
with no best-known prefix command. -/
def lookup_cmd_top (toks : List String) (clist : List cmd_node)
    (ignore_help_classes : Bool) : lookup_outcome :=
  lookup_cmd_1 toks clist none ignore_help_classes

/-!
Part 3: command repetition.  command.h only declares repeat_previous
(its body lives in top.c, which is not under this source tree), so it
is modelled from the specification (spec sections 3 and 4.5).
-/

/-- Modelled from the spec: the user-visible usage error thrown by
repeat_previous when there is no previous command. -/
inductive repeat_error where
  | no_previous_command
  deriving DecidableEq, Repr

/-- Modelled from the spec: the process-wide RepeatState: the last
saved command line (none when no previous saved line exists) and the
no_repeat flag set by a command that refuses repetition. -/
structure repeat_state where
  saved_line : Option String
  no_repeat : Bool

/-- Modelled from the spec: repeat_previous (body in top.c, not under
this source tree).  It fails with a user-visible error if no previous
saved line exists, leaving the state unchanged; otherwise it marks the
current command as non-repeating (as dont_repeat does) and returns the
previously saved line for the caller to re-dispatch. -/
def repeat_previous (s : repeat_state) :
    Except repeat_error String × repeat_state :=
  match s.saved_line with
  | none => (.error .no_previous_command, s)
  | some line => (.ok line, { s with no_repeat := true })

end GdbCommand

namespace GdbCompile

/-!
Part 4: compile/compile-c-support.c.  internal_error is a fatal,
noreturn condition, modelled as the error case of an Except.
-/

/-- A fatal internal_error raised by gdb. -/
inductive compile_fatal where
  | internal_error
  deriving DecidableEq, Repr

/-- c_get_mode_for_size of compile-c-support.c: the GCC mode string
for a byte size, with internal_error on any other size. -/
def c_get_mode_for_size (size : Int) : Except compile_fatal String :=
  if size = 1 then .ok "QI"
  else if size = 2 then .ok "HI"
  else if size = 4 then .ok "SI"
  else if size = 8 then .ok "DI"
  else .error .internal_error

/-- The mode-typedef loop of compile_program::compute: for i in 0..3
request the mode for size 1 << i, assert the result is not NULL, and
emit one typedef per mode.  The loop is modelled by the list of mode
strings it obtains; a returned .ok means no internal_error and no
gdb_assert failure was reached. -/
def compute_mode_typedef_loop : Except compile_fatal (List String) :=
  (List.range 4).mapM (fun i => c_get_mode_for_size ((2 : Int) ^ i))

end GdbCompile

namespace GdbExamples

/-!
Concrete instances used to witness the theorems below.
-/

open GdbCommand

/-- A concrete memory, every cell holding false. -/
def mem0 : Mem := fun _ => .v_bool false

/-- A concrete user getter. -/
def getter0 : GetterFn := fun _ => .v_bool true

/-- A concrete user setter (writes cell 5). -/
def setter0 : SetterFn := fun v m => mem_update m 5 v

/-- A Setting bound to the memory cell at address 0, kind
var_uinteger: the state produced by param_ref::set_p<var_uinteger>. -/
def s_cell : base_param_ref :=
  { m_var_type := .var_uinteger, m_var := some 0 }

/-- A Setting with a full user accessor pair and no memory cell: the
state produced by set_accessors on a fresh Setting. -/
def s_acc : base_param_ref :=
  { m_var_type := .var_boolean, m_getter := some getter0,
    m_setter := some setter0 }

/-- A leaf command with a handler, abbreviation allowed. -/
def mkleaf (n : String) : cmd_node := .mk n true true [] none

/-- A root list where the token "br" is ambiguous. -/
def demo_root : List cmd_node := [mkleaf "break", mkleaf "branch", mkleaf "run"]

/-- A prefix command with two children that make "a" ambiguous. -/
def info_node : cmd_node := .mk "info" true true [mkleaf "args", mkleaf "address"] none

/-- A root list containing the info prefix command. -/
def demo_root2 : List cmd_node := [info_node, mkleaf "run"]

/-- A repeat state with no previously saved line. -/
def rs_empty : repeat_state := { saved_line := none, no_repeat := false }

/-- A repeat state with a previously saved line. -/
def rs_step : repeat_state := { saved_line := some "step", no_repeat := false }

end GdbExamples

/-!
Theorems.  The helper lemmas come first, then one theorem per claim
(with a witness where the theorem carries hypotheses).
-/

open GdbCommand GdbCompile GdbExamples

/-- Helper: var_types_have_same_storage on a nonempty list holds iff
every later element has the storage type of the head. -/
theorem same_storage_cons (t : var_types) (us : List var_types) :
    var_types_have_same_storage (t :: us)
      = us.all (fun u => var_types_storage t == var_types_storage u) := by
  induction us with
  | nil => simp [var_types_have_same_storage]
  | cons u vs ih =>
    cases vs with
    | nil => simp [var_types_have_same_storage]
    | cons v ws =>
      simp only [var_types_have_same_storage, List.all_cons] at ih ⊢
      rw [ih]

/-- Helper: the storage type of every string-like kind is
ty_string. -/
theorem storage_of_uses_string (v : var_types)
    (h : var_type_uses_string v = true) :
    var_types_storage v = .ty_string := by
  cases v <;> first
    | rfl
    | exact absurd h (by decide)

/-- Claim C1: for a Setting whose current kind is covered by the
requested kind group, get returns the bound getter's result when one
is installed and otherwise reads through the memory cell, faulting
when there is no cell; set calls the bound setter with v when one is
installed and otherwise writes v through the memory cell, faulting
when there is no cell. -/
theorem C1_get_set_dispatch (Ts : List var_types) (s : base_param_ref)
    (mem : Mem) (v : setting_value)
    (hsame : var_types_have_same_storage Ts = true)
    (hcov : covers_type Ts s.m_var_type = true) :
    s.get Ts mem
      = (match s.m_getter with
         | some g => .ok (g mem)
         | none =>
           match s.m_var with
           | some a => .ok (mem a)
           | none => .error .assertion_failure) ∧
    s.set Ts v mem
      = (match s.m_setter with
         | some f => .ok (f v mem)
         | none =>
           match s.m_var with
           | some a => .ok (mem_update mem a v)
           | none => .error .assertion_failure) := by
  constructor
  · simp only [base_param_ref.get, base_param_ref.get_p, hcov, if_true]
    cases s.m_getter <;> cases s.m_var <;> rfl
  · simp only [base_param_ref.set, hcov, if_true]
    cases s.m_setter <;> cases s.m_var <;> rfl

/-- Witness for C1 at a concrete cell-backed Setting. -/
theorem C1_witness :
    var_types_have_same_storage [.var_uinteger] = true ∧
    covers_type [.var_uinteger] s_cell.m_var_type = true ∧
    (s_cell.get [.var_uinteger] mem0 = .ok (mem0 0) ∧
     s_cell.set [.var_uinteger] (.v_uint 7) mem0
       = .ok (mem_update mem0 0 (.v_uint 7))) :=
  ⟨by simp [var_types_have_same_storage], by decide,
   C1_get_set_dispatch [.var_uinteger] s_cell mem0 (.v_uint 7)
     (by simp [var_types_have_same_storage]) (by decide)⟩

/-- Claim C2: binding a fresh Setting to a cell with set_p, then
setting a value of the kind's storage type, then getting with the same
kind, returns exactly the written value. -/
theorem C2_round_trip (K : var_types) (addr : Nat) (v : setting_value)
    (mem : Mem) (hty : storage_of_value v = var_types_storage K) :
    (param_ref.set_p K (some addr) base_param_ref.init).bind
      (fun s1 => (s1.set [K] v mem).bind (fun mem1 => s1.get [K] mem1))
      = .ok v := by
  simp [param_ref.set_p, param_ref.set_type, base_param_ref.init,
    base_param_ref.empty, base_param_ref.set, base_param_ref.get,
    base_param_ref.get_p, covers_type, mem_update, Except.map,
    Except.bind]

/-- Witness for C2 at kind var_uinteger, address 0, value 7. -/
theorem C2_witness :
    storage_of_value (.v_uint 7) = var_types_storage .var_uinteger ∧
    (param_ref.set_p .var_uinteger (some 0) base_param_ref.init).bind
      (fun s1 => (s1.set [.var_uinteger] (.v_uint 7) mem0).bind
        (fun mem1 => s1.get [.var_uinteger] mem1))
      = .ok (.v_uint 7) :=
  ⟨by decide, C2_round_trip .var_uinteger 0 (.v_uint 7) mem0 (by decide)⟩

/-- Claim C3: a get or set call whose requested kind group does not
cover the Setting's current kind raises the assertion fault and never
touches the storage. -/
theorem C3_mismatch_faults (Ts : List var_types) (s : base_param_ref)
    (mem : Mem) (v : setting_value)
    (hcov : covers_type Ts s.m_var_type = false) :
    s.get Ts mem = .error .assertion_failure ∧
    s.set Ts v mem = .error .assertion_failure := by
  constructor
  · simp only [base_param_ref.get, hcov, Bool.false_eq_true, if_false]
  · simp only [base_param_ref.set, hcov, Bool.false_eq_true, if_false]

/-- Witness for C3: requesting var_boolean access on a var_uinteger
Setting faults. -/
theorem C3_witness :
    covers_type [.var_boolean] s_cell.m_var_type = false ∧
    (s_cell.get [.var_boolean] mem0 = .error .assertion_failure ∧
     s_cell.set [.var_boolean] (.v_bool true) mem0
       = .error .assertion_failure) :=
  ⟨by decide,
   C3_mismatch_faults [.var_boolean] s_cell mem0 (.v_bool true) (by decide)⟩

/-- Counterexample for C4: the sequence set_p then set_accessors on a
fresh Setting leaves both a non-null memory cell and a non-null
accessor pair, refuting the claimed exclusivity invariant. -/
theorem C4_counterexample :
    param_ref.set_p .var_uinteger (some 0) base_param_ref.init = .ok s_cell ∧
    (s_cell.set_accessors .var_uinteger (some setter0) (some getter0)).m_var
      = some 0 ∧
    (s_cell.set_accessors .var_uinteger (some setter0) (some getter0)).m_getter
      = some getter0 ∧
    (s_cell.set_accessors .var_uinteger (some setter0) (some getter0)).m_setter
      = some setter0 :=
  ⟨rfl, rfl, rfl, rfl⟩

/-- Claim C4 (amended): set_p faults whenever a memory cell is already
bound, but set_accessors installs the accessor pair without checking
or clearing the memory cell, so a Setting reached by set_p followed by
set_accessors holds both storages at once. -/
theorem C4_amended (s : base_param_ref) (T : var_types) (p : Option Nat)
    (f : Option SetterFn) (g : Option GetterFn)
    (hcell : s.m_var ≠ none) :
    param_ref.set_p T p s = .error .assertion_failure ∧
    (s.set_accessors T f g).m_var = s.m_var ∧
    (s.set_accessors T f g).m_getter = g ∧
    (s.set_accessors T f g).m_setter = f ∧
    (s.set_accessors T f g).m_var_type = T := by
  refine ⟨?_, rfl, rfl, rfl, rfl⟩
  cases p with
  | none => rfl
  | some a =>
    cases hv : s.m_var with
    | none => exact absurd hv hcell
    | some b =>
      simp [param_ref.set_p, param_ref.set_type, base_param_ref.empty, hv,
        Except.map]

/-- Witness for C4 (amended) at the cell-backed Setting. -/
theorem C4_witness :
    s_cell.m_var ≠ none ∧
    (param_ref.set_p .var_boolean (some 1) s_cell
       = .error .assertion_failure ∧
     (s_cell.set_accessors .var_boolean (some setter0) (some getter0)).m_var
       = s_cell.m_var ∧
     (s_cell.set_accessors .var_boolean (some setter0) (some getter0)).m_getter
       = some getter0 ∧
     (s_cell.set_accessors .var_boolean (some setter0) (some getter0)).m_setter
       = some setter0 ∧
     (s_cell.set_accessors .var_boolean (some setter0) (some getter0)).m_var_type
       = .var_boolean) :=
  ⟨by decide,
   C4_amended s_cell .var_boolean (some 1) (some setter0) (some getter0)
     (by decide)⟩

/-- Counterexample for C5: a Setting holding a full accessor pair and
no memory cell is reported empty by base_param_ref::empty, and get on
it succeeds through the getter rather than faulting, refuting "empty
iff neither a memory reference nor an accessor pair" and "get/set on
an empty Setting faults". -/
theorem C5_counterexample :
    s_acc.empty = true ∧
    s_acc.m_getter = some getter0 ∧
    s_acc.m_setter = some setter0 ∧
    s_acc.get [.var_boolean] mem0 = .ok (getter0 mem0) :=
  ⟨rfl, rfl, rfl, rfl⟩

/-- Claim C5 (amended): a Setting is empty exactly when it has no
memory reference (bound accessors do not affect emptiness); get on a
Setting with neither a getter nor a memory reference faults, as does
set on one with neither a setter nor a memory reference; the boolean
conversion is true iff a full accessor pair is present or the Setting
is not empty. -/
theorem C5_amended (s : base_param_ref) (Ts : List var_types) (mem : Mem)
    (v : setting_value) :
    (s.empty = true ↔ s.m_var = none) ∧
    (s.m_getter = none → s.m_var = none →
       s.get Ts mem = .error .assertion_failure) ∧
    (s.m_setter = none → s.m_var = none →
       s.set Ts v mem = .error .assertion_failure) ∧
    (s.valid = true ↔
       (s.m_getter.isSome = true ∧ s.m_setter.isSome = true) ∨
       s.empty = false) := by
  refine ⟨?_, ?_, ?_, ?_⟩
  · simp [base_param_ref.empty, Option.isNone_iff_eq_none]
  · intro hg hv
    simp only [base_param_ref.get, base_param_ref.get_p, hg, hv]
    cases covers_type Ts s.m_var_type <;> rfl
  · intro hf hv
    simp only [base_param_ref.set, hf, hv]
    cases covers_type Ts s.m_var_type <;> rfl
  · simp [base_param_ref.valid, Bool.or_eq_true, Bool.and_eq_true,
      Bool.not_eq_true']

/-- Witness for C5 (amended) at a fresh Setting. -/
theorem C5_witness :
    (base_param_ref.init.empty = true ↔ base_param_ref.init.m_var = none) ∧
    base_param_ref.init.get [.var_boolean] mem0
      = .error .assertion_failure ∧
    base_param_ref.init.set [.var_boolean] (.v_bool true) mem0
      = .error .assertion_failure ∧
    (base_param_ref.init.valid = true ↔
       (base_param_ref.init.m_getter.isSome = true ∧
        base_param_ref.init.m_setter.isSome = true) ∨
       base_param_ref.init.empty = false) :=
  ⟨(C5_amended base_param_ref.init [.var_boolean] mem0 (.v_bool true)).1,
   (C5_amended base_param_ref.init [.var_boolean] mem0 (.v_bool true)).2.1
     rfl rfl,
   (C5_amended base_param_ref.init [.var_boolean] mem0 (.v_bool true)).2.2.1
     rfl rfl,
   (C5_amended base_param_ref.init [.var_boolean] mem0 (.v_bool true)).2.2.2⟩

/-- Claim C6: set_p faults on a null argument pointer, faults when a
memory cell is already bound, and under its precondition (empty
Setting, non-null pointer) installs the kind and the memory
reference. -/
theorem C6_set_p_precondition (T : var_types) (addr : Nat)
    (s : base_param_ref) :
    param_ref.set_p T none s = .error .assertion_failure ∧
    (s.empty = false →
       param_ref.set_p T (some addr) s = .error .assertion_failure) ∧
    (s.empty = true →
       param_ref.set_p T (some addr) s
         = .ok { s with m_var_type := T, m_var := some addr }) := by
  refine ⟨rfl, ?_, ?_⟩
  · intro h
    simp [param_ref.set_p, param_ref.set_type, h, Except.map]
  · intro h
    simp [param_ref.set_p, param_ref.set_type, h, Except.map]

/-- Witness for C6: set_p on a non-empty Setting faults, set_p on a
fresh Setting installs kind and cell. -/
theorem C6_witness :
    (s_cell.empty = false ∧
     param_ref.set_p .var_uinteger (some 0) s_cell
       = .error .assertion_failure) ∧
    (base_param_ref.init.empty = true ∧
     param_ref.set_p .var_uinteger (some 0) base_param_ref.init
       = .ok { base_param_ref.init with
               m_var_type := .var_uinteger, m_var := some 0 }) :=
  ⟨⟨rfl, (C6_set_p_precondition .var_uinteger 0 s_cell).2.1 rfl⟩,
   ⟨rfl, (C6_set_p_precondition .var_uinteger 0 base_param_ref.init).2.2 rfl⟩⟩

/-- Counterexample for C7: the zero-capable integer kinds do not all
share one storage type: var_zinteger is stored as int but
var_zuinteger as unsigned int, so var_types_have_same_storage rejects
the group. -/
theorem C7_counterexample :
    var_types_have_same_storage [.var_zinteger, .var_zuinteger] = false ∧
    var_types_have_same_storage
      [.var_zinteger, .var_zuinteger, .var_zuinteger_unlimited] = false := by
  constructor <;> simp [var_types_have_same_storage, var_types_storage]

/-- Claim C7 (amended): the four string-like kinds all share the
string storage type and var_type_uses_string holds exactly for them,
so var_types_have_same_storage accepts any group of string-like kinds;
of the zero-capable integer kinds, var_zinteger and
var_zuinteger_unlimited share the int storage type (and any group
drawn from those two is accepted), while var_zuinteger is stored as
unsigned int. -/
theorem C7_amended (l : List var_types) (v : var_types) :
    var_types_storage .var_string = .ty_string ∧
    var_types_storage .var_string_noescape = .ty_string ∧
    var_types_storage .var_optional_filename = .ty_string ∧
    var_types_storage .var_filename = .ty_string ∧
    var_types_have_same_storage
      [.var_string, .var_string_noescape, .var_optional_filename,
       .var_filename] = true ∧
    (var_type_uses_string v = true ↔
       (v = .var_string ∨ v = .var_string_noescape ∨
        v = .var_optional_filename ∨ v = .var_filename)) ∧
    ((∀ u ∈ l, var_type_uses_string u = true) →
       var_types_have_same_storage l = true) ∧
    ((∀ u ∈ l, u = .var_zinteger ∨ u = .var_zuinteger_unlimited) →
       var_types_have_same_storage l = true) ∧
    var_types_storage .var_zinteger = .ty_int ∧
    var_types_storage .var_zuinteger_unlimited = .ty_int ∧
    var_types_storage .var_zuinteger = .ty_uint := by
  refine ⟨rfl, rfl, rfl, rfl,
    by simp [var_types_have_same_storage, var_types_storage], ?_, ?_,
    ?_, rfl, rfl, rfl⟩
  · cases v <;> simp [var_type_uses_string]
  · intro h
    cases l with
    | nil => simp [var_types_have_same_storage]
    | cons t us =>
      rw [same_storage_cons]
      rw [List.all_eq_true]
      intro u hu
      rw [storage_of_uses_string t (h t (by simp)),
        storage_of_uses_string u (h u (by simp [hu]))]
      rfl
  · intro h
    cases l with
    | nil => simp [var_types_have_same_storage]
    | cons t us =>
      rw [same_storage_cons]
      rw [List.all_eq_true]
      intro u hu
      have ht := h t (by simp)
      have hue := h u (by simp [hu])
      rcases ht with ht | ht <;> rcases hue with hue | hue <;>
        rw [ht, hue] <;> rfl

/-- Witness for C7 (amended) at a concrete string group and a concrete
zero-capable group. -/
theorem C7_witness :
    (∀ u ∈ [var_types.var_string, var_types.var_filename],
       var_type_uses_string u = true) ∧
    (∀ u ∈ [var_types.var_zinteger, var_types.var_zuinteger_unlimited],
       u = .var_zinteger ∨ u = .var_zuinteger_unlimited) ∧
    var_types_have_same_storage [.var_string, .var_filename] = true ∧
    var_types_have_same_storage
      [.var_zinteger, .var_zuinteger_unlimited] = true :=
  ⟨by decide, by decide,
   (C7_amended [.var_string, .var_filename] .var_string).2.2.2.2.2.2.1
     (by decide),
   (C7_amended [.var_zinteger, .var_zuinteger_unlimited]
       .var_string).2.2.2.2.2.2.2.1 (by decide)⟩

/-- Helper: one-step unfolding of lookup_cmd_1 on a nonempty token
list. -/
theorem lookup_cmd_1_cons (tok : String) (rest : List String)
    (clist : List cmd_node) (best : Option cmd_node) (ihc : Bool) :
    lookup_cmd_1 (tok :: rest) clist best ihc
      = match find_matches tok ihc clist with
        | [] => ⟨.null, best, tok :: rest⟩
        | [n] =>
          let base := resolve_alias n
          if !base.subcommands.isEmpty && !rest.isEmpty then
            lookup_cmd_1 rest base.subcommands (some base) ihc
          else ⟨.cmd base, best, rest⟩
        | _ => ⟨.ambiguous_sentinel, best, tok :: rest⟩ := by
  rw [lookup_cmd_1]

/-- Claim C8: when more than one sibling matches the current token,
lookup returns the ambiguity sentinel (distinct from every real
command node), reports as result_list the best-known enclosing prefix
command (none when the ambiguity occurs at the root call), and leaves
the cursor advanced exactly past the last unambiguous prefix boundary
(the ambiguous token is not consumed); descending through a unique
prefix match records that prefix as the new best-known enclosing
prefix. -/
theorem C8_lookup_ambiguous (tok : String) (rest : List String)
    (clist : List cmd_node) (best : Option cmd_node) (ihc : Bool)
    (m : cmd_node) :
    cmd_lookup_ret.ambiguous_sentinel ≠ .cmd m ∧
    (2 ≤ (find_matches tok ihc clist).length →
       lookup_cmd_1 (tok :: rest) clist best ihc
         = ⟨.ambiguous_sentinel, best, tok :: rest⟩ ∧
       lookup_cmd_top (tok :: rest) clist ihc
         = ⟨.ambiguous_sentinel, none, tok :: rest⟩) ∧
    (find_matches tok ihc clist = [m] →
       (resolve_alias m).subcommands ≠ [] → rest ≠ [] →
       lookup_cmd_1 (tok :: rest) clist best ihc
         = lookup_cmd_1 rest (resolve_alias m).subcommands
             (some (resolve_alias m)) ihc) := by
  refine ⟨nofun, ?_, ?_⟩
  · intro hlen
    have hgen : ∀ b : Option cmd_node,
        lookup_cmd_1 (tok :: rest) clist b ihc
          = ⟨.ambiguous_sentinel, b, tok :: rest⟩ := by
      intro b
      rw [lookup_cmd_1_cons]
      cases hfm : find_matches tok ihc clist with
      | nil => rw [hfm] at hlen; simp at hlen
      | cons a t =>
        cases t with
        | nil => rw [hfm] at hlen; simp at hlen
        | cons c l => rfl
    exact ⟨hgen best, hgen none⟩
  · intro hfm hsub hrest
    rw [lookup_cmd_1_cons, hfm]
    have h1 : (resolve_alias m).subcommands.isEmpty = false := by
      cases hs : (resolve_alias m).subcommands with
      | nil => exact absurd hs hsub
      | cons a t => rfl
    have h2 : rest.isEmpty = false := by
      cases hr : rest with
      | nil => exact absurd hr hrest
      | cons a t => rfl
    simp [h1, h2]

/-- Witness for C8: the token "br" is ambiguous at the root (sentinel,
no enclosing prefix, cursor still at "br"); "info a" descends through
the unique prefix match "info". -/
theorem C8_witness :
    lookup_cmd_top ["br"] demo_root true
      = ⟨.ambiguous_sentinel, none, ["br"]⟩ ∧
    lookup_cmd_1 ["info", "a"] demo_root2 none true
      = lookup_cmd_1 ["a"] (resolve_alias info_node).subcommands
          (some (resolve_alias info_node)) true :=
  ⟨((C8_lookup_ambiguous "br" [] demo_root none true info_node).2.1
      (by decide)).2,
   (C8_lookup_ambiguous "info" ["a"] demo_root2 none true info_node).2.2
     rfl (by simp [resolve_alias, info_node, cmd_node.subcommands,
       cmd_node.alias_target]) (by decide)⟩

/-- Claim C9: repeat_previous with no previous saved command line
fails with the user-visible error and leaves the state (in particular
the saved line) unchanged; with a previous saved line it marks the
current command as non-repeating and returns that line, leaving the
saved line itself unchanged. -/
theorem C9_repeat_previous (s : repeat_state) (line : String) :
    (s.saved_line = none →
       repeat_previous s = (.error .no_previous_command, s)) ∧
    (s.saved_line = some line →
       repeat_previous s = (.ok line, { s with no_repeat := true })) := by
  constructor
  · intro h
    simp [repeat_previous, h]
  · intro h
    simp [repeat_previous, h]

/-- Witness for C9 at a state without and a state with a previous
line. -/
theorem C9_witness :
    repeat_previous rs_empty
      = (.error .no_previous_command, rs_empty) ∧
    repeat_previous rs_step
      = (.ok "step", { rs_step with no_repeat := true }) :=
  ⟨(C9_repeat_previous rs_empty "step").1 rfl,
   (C9_repeat_previous rs_step "step").2 rfl⟩

/-- Claim C10: c_get_mode_for_size returns the mode strings QI, HI,
SI, DI for the sizes 1, 2, 4 and 8 (never a null mode), raises the
fatal internal error on every other size, and so the mode-typedef loop
of compile_program::compute, which requests the sizes 1 << i for i in
0..3, completes without reaching its null-check assertion. -/
theorem C10_mode_for_size (size : Int) :
    c_get_mode_for_size 1 = .ok "QI" ∧
    c_get_mode_for_size 2 = .ok "HI" ∧
    c_get_mode_for_size 4 = .ok "SI" ∧
    c_get_mode_for_size 8 = .ok "DI" ∧
    (size ≠ 1 → size ≠ 2 → size ≠ 4 → size ≠ 8 →
       c_get_mode_for_size size = .error .internal_error) ∧
    compute_mode_typedef_loop = .ok ["QI", "HI", "SI", "DI"] := by
  refine ⟨rfl, rfl, rfl, rfl, ?_, rfl⟩
  intro h1 h2 h4 h8
  simp [c_get_mode_for_size, h1, h2, h4, h8]

/-- Witness for C10 at the unsupported size 3. -/
theorem C10_witness :
    c_get_mode_for_size 3 = .error .internal_error :=
  (C10_mode_for_size 3).2.2.2.2.1 (by decide) (by decide) (by decide)
    (by decide)
